import Mathlib

set_option maxRecDepth 100000
set_option maxHeartbeats 1000000

/-!
Shallow embedding of the SatSure climate-analysis pipeline
(`src/resilience.py`, `src/analyzer.py`, `src/transformer.py`,
`src/validator.py`) and proofs about it.

Modelling conventions:
* pandas `Series` of floats become `List ℚ`; exact rational arithmetic
  replaces IEEE floats (the source only adds, multiplies, divides and
  compares, so rationals are faithful away from division by zero).
* a float `NaN` cell becomes `Option ℚ` with `none` for NaN.
* an IEEE division whose denominator is zero (which yields `inf`/`NaN`
  in the source, an undefined statistic) is modelled as a computation
  returning `none`.
* Python exceptions become `Except String`.
-/

/-! ## Definitions (shallow embedding of the source) -/

/-- `Series.mean()`: sum divided by length (junk value `0` on `[]`). -/
def listMean (xs : List ℚ) : ℚ := xs.sum / (xs.length : ℚ)

/-- `(series <op> t).mean()` for a boolean condition: the fraction of
elements satisfying `p` (junk value `0` on `[]`). -/
def fracIf (xs : List ℚ) (p : ℚ → Bool) : ℚ :=
  ((xs.filter p).length : ℚ) / (xs.length : ℚ)

/-- `Series.var()` with pandas' default `ddof=1`
(junk value `0` on a singleton, where pandas yields `NaN`). -/
def sampleVar (xs : List ℚ) : ℚ :=
  (xs.map (fun x => (x - listMean xs) ^ 2)).sum / ((xs.length : ℚ) - 1)

/-- `Series.std()`: square root of the `ddof=1` variance. -/
noncomputable def sampleStd (xs : List ℚ) : ℝ := Real.sqrt ((sampleVar xs : ℚ) : ℝ)

/-- `self.thresholds['drought_threshold']` (0.8, 80% of normal rainfall). -/
def drought_threshold : ℚ := 4 / 5

/-- `self.thresholds['excess_threshold']` (1.2, 120% of normal rainfall). -/
def excess_threshold : ℚ := 6 / 5

/-- `self.thresholds['temp_stress_high']` (35 °C). -/
def temp_stress_high : ℚ := 35

/-- `self.thresholds['temp_stress_low']` (15 °C). -/
def temp_stress_low : ℚ := 15

/-- `ResilienceAnalyzer._rainfall_resilience`.  The source computes
`variability = rainfall.std() / mean_rain` with no guard on
`mean_rain`; a zero mean makes the coefficient of variation an
undefined statistic (`inf`/`NaN` in floats), modelled here as `none`. -/
noncomputable def _rainfall_resilience (rainfall : List ℚ) : Option ℝ :=
  let mean_rain := listMean rainfall
  if mean_rain = 0 then none
  else
    let variability : ℝ := sampleStd rainfall / ((mean_rain : ℚ) : ℝ)
    let drought_freq : ℚ := fracIf rainfall (fun x => decide (x < drought_threshold * mean_rain))
    let excess_freq : ℚ := fracIf rainfall (fun x => decide (excess_threshold * mean_rain < x))
    some (max 0 (min 100 (100 - variability * 50 - ((drought_freq : ℚ) : ℝ) * 100
      - ((excess_freq : ℚ) : ℝ) * 75)))

/-- `ResilienceAnalyzer._temperature_resilience`. -/
def _temperature_resilience (temperature : List ℚ) : ℚ :=
  let high_stress := fracIf temperature (fun x => decide (temp_stress_high < x))
  let low_stress := fracIf temperature (fun x => decide (x < temp_stress_low))
  max 0 (min 100 (100 - high_stress * 100 - low_stress * 75))

/-- `ResilienceAnalyzer.calculate_resilience_score`: the mean of the two
sub-scores (undefined whenever the rainfall sub-score is). -/
noncomputable def calculate_resilience_score (rainfall temperature : List ℚ) : Option ℝ :=
  (_rainfall_resilience rainfall).map
    (fun rain_score => (rain_score + ((_temperature_resilience temperature : ℚ) : ℝ)) / 2)

/-- Season classification labels produced by
`ClimateAnalyzer._classify_seasons`. -/
inductive Status where
  | Drought
  | ExcessRain
  | Normal
deriving DecidableEq, Repr

/-- The classifying lambda inside `ClimateAnalyzer._classify_seasons`:
`"Drought" if x < 0.8*mean else ("Excess Rain" if x > 1.2*mean else "Normal")`. -/
def classify_value (mean_rain x : ℚ) : Status :=
  if x < 4 / 5 * mean_rain then Status.Drought
  else if 6 / 5 * mean_rain < x then Status.ExcessRain
  else Status.Normal

/-- `ClimateAnalyzer._classify_seasons` applied to one seasonal series:
each value is classified against the series' own mean. -/
def _classify_seasons (series : List ℚ) : List Status :=
  series.map (classify_value (listMean series))

/-- `ClimateAnalyzer.crop_info`: fixed crop economics table
(crop name, area, price, yield). -/
structure CropInfo where
  area : ℕ
  price : ℕ
  yield : ℕ
deriving DecidableEq, Repr

/-- The `self.crop_info` dictionary from `ClimateAnalyzer.__init__`. -/
def crop_info : List (String × CropInfo) :=
  [("Soybean", ⟨3000000, 4000, 10⟩),
   ("Cotton",  ⟨2500000, 6000, 8⟩),
   ("Wheat",   ⟨2000000, 2500, 25⟩),
   ("Gram",    ⟨1500000, 5000, 8⟩),
   ("Paddy",   ⟨1800000, 2200, 20⟩)]

/-- `impact_map = {"Drought": -20, "Excess Rain": -10, "Normal": 0}`. -/
def impact_map : Status → ℤ
  | Status.Drought => -20
  | Status.ExcessRain => -10
  | Status.Normal => 0

/-- One row of the economic-impact table built by
`ClimateAnalyzer._calculate_economic_impact`. -/
structure LossRow where
  region : String
  year : ℤ
  season : String
  crop : String
  status : Status
  base_yield : ℕ
  base_revenue : ℕ
  estimated_loss : ℚ
deriving DecidableEq, Repr

/-- `ClimateAnalyzer._calculate_economic_impact`.  The classification
dict maps a region key (its characters, e.g. `"mh_kharif"`) to a series
of per-year statuses; `region_key.split('_')[0]` is `List.splitOn '_'`
followed by taking the head, and `"kharif" in region_key` is the
substring (infix) test. -/
def _calculate_economic_impact
    (classification : List (List Char × List (ℤ × Status))) : List LossRow :=
  classification.flatMap (fun rk =>
    let region : String :=
      if (List.splitOn '_' rk.1).headD [] = "mh".toList then "Maharashtra" else "Madhya Pradesh"
    let season : String := if "kharif".toList <:+: rk.1 then "Kharif" else "Rabi"
    rk.2.flatMap (fun ys =>
      crop_info.map (fun cv =>
        { region := region
          year := ys.1
          season := season
          crop := cv.1
          status := ys.2
          base_yield := cv.2.area * cv.2.yield
          base_revenue := cv.2.area * cv.2.yield * cv.2.price
          estimated_loss :=
            ((impact_map ys.2 : ℤ) : ℚ) / 100 * ((cv.2.area * cv.2.yield * cv.2.price : ℕ) : ℚ) })))

/-- `Series.quantile(0.95)` with pandas' default linear interpolation:
sort, take position `h = (n-1)·0.95`, interpolate between the two
neighbouring order statistics. -/
def quantile95 (xs : List ℚ) : ℚ :=
  let s := xs.mergeSort (fun a b => decide (a ≤ b))
  let h : ℚ := ((xs.length : ℚ) - 1) * (95 / 100)
  let i : ℕ := (Int.floor h).toNat
  let lo := s.getD i 0
  let hi := s.getD (i + 1) lo
  lo + (h - (i : ℚ)) * (hi - lo)

/-- `ClimateAnalyzer._assess_infrastructure` for one region, given the
monthly rainfall values and monthly mean temperatures. -/
def _assess_infrastructure (precip_rainfall temp_mean : List ℚ) : ℚ :=
  let extreme_rain_threshold := quantile95 precip_rainfall
  let extreme_rain_freq := fracIf precip_rainfall (fun x => decide (extreme_rain_threshold < x))
  let extreme_temp_threshold := quantile95 temp_mean
  let extreme_temp_freq := fracIf temp_mean (fun x => decide (extreme_temp_threshold < x))
  let risk_score := extreme_rain_freq * 50 + extreme_temp_freq * 50
  min 100 (risk_score * 100)

/-- A concrete classification input for the C4 witness: one region key
(`"mh_kharif"`), one year, classified `Normal`. -/
def econ_witness_input : List (List Char × List (ℤ × Status)) :=
  [("mh_kharif".toList, [((2020 : ℤ), Status.Normal)])]

/-- A default row used only to take the head of a non-empty table. -/
def default_loss_row : LossRow :=
  ⟨"", 0, "", "", Status.Normal, 0, 0, 0⟩

/-- One row of a precipitation dataframe after the transformer adds
`month` and `year` columns (`df['month'] = df['date'].dt.month`,
`df['year'] = df['date'].dt.year`). -/
structure SRow where
  year : ℤ
  month : ℕ
  rainfall_mm : ℚ
deriving DecidableEq, Repr

/-- Kharif months: `df['month'].isin([6,7,8,9,10])`. -/
def kharif_months : List ℕ := [6, 7, 8, 9, 10]

/-- Rabi months: `df['month'].isin([11,12,1,2,3])`. -/
def rabi_months : List ℕ := [11, 12, 1, 2, 3]

/-- `groupby('year')['rainfall_mm'].mean()`: pandas sorts the group
keys, producing one (year, mean) entry per distinct calendar year among
the rows. -/
def groupby_year_mean (rows : List SRow) : List (ℤ × ℚ) :=
  let years := ((rows.map SRow.year).dedup).mergeSort (fun a b => decide (a ≤ b))
  years.map (fun y => (y, listMean ((rows.filter (fun r => r.year == y)).map SRow.rainfall_mm)))

/-- The Kharif seasonal aggregate inside
`DataTransformer._calculate_seasonal_aggregates` for one
precipitation dataframe. -/
def seasonal_kharif (rows : List SRow) : List (ℤ × ℚ) :=
  groupby_year_mean (rows.filter (fun r => kharif_months.contains r.month))

/-- The Rabi seasonal aggregate inside
`DataTransformer._calculate_seasonal_aggregates` for one
precipitation dataframe. -/
def seasonal_rabi (rows : List SRow) : List (ℤ × ℚ) :=
  groupby_year_mean (rows.filter (fun r => rabi_months.contains r.month))

/-- One row of a merged crop-season dataframe: temperature `mean` and
`rainfall_mm`, each possibly missing (NaN). -/
structure CropRow where
  mean : Option ℚ
  rainfall_mm : Option ℚ
deriving DecidableEq, Repr

/-- `optimal_temp = (data['mean'] >= 20) & (data['mean'] <= 30)`
followed by `.fillna(False)`: a missing temperature yields `False`
(pandas comparisons with NaN are already `False`). -/
def optimal_temp (r : CropRow) : Bool :=
  match r.mean with
  | some t => decide (20 ≤ t) && decide (t ≤ 30)
  | none => false

/-- `adequate_rain = data['rainfall_mm'] >= 5` followed by
`.fillna(False)`. -/
def adequate_rain (r : CropRow) : Bool :=
  match r.rainfall_mm with
  | some x => decide (5 ≤ x)
  | none => false

/-- `stress_days = optimal_temp.eq(False) | adequate_rain.eq(False)`. -/
def stress_day (r : CropRow) : Bool := !(optimal_temp r) || !(adequate_rain r)

/-- `stress_percentage = float(stress_days.mean() * 100)`. -/
def stress_percentage (rows : List CropRow) : ℚ :=
  ((rows.filter stress_day).length : ℚ) / (rows.length : ℚ) * 100

/-- `self.thresholds['dry_spell']` (15 days). -/
def dry_spell_threshold : ℕ := 15

/-- The loop body of `DataValidator._find_dry_spells`: on a dry day
extend the current run; on a wet day append the run if it reached
`threshold`, then reset. -/
def dry_step (threshold : ℕ) (sc : List ℕ × ℕ) (is_dry : Bool) : List ℕ × ℕ :=
  if is_dry then (sc.1, sc.2 + 1)
  else if threshold ≤ sc.2 then (sc.1 ++ [sc.2], 0)
  else (sc.1, 0)

/-- The loop of `DataValidator._find_dry_spells` over
`dry_days = df['rainfall_mm'] < 1`, plus the final append after the
loop (`if current_spell >= self.thresholds['dry_spell']`). -/
def _find_dry_spells (rainfall : List ℚ) (threshold : ℕ) : List ℕ :=
  let r := (rainfall.map (fun x => decide (x < 1))).foldl (dry_step threshold) ([], 0)
  if threshold ≤ r.2 then r.1 ++ [r.2] else r.1

/-- `max(dry_spells) if dry_spells else 0` from
`DataValidator._detect_anomalies`. -/
def max_duration (spells : List ℕ) : ℕ :=
  if spells.isEmpty then 0 else spells.foldl max 0

/-- Spec-side definition: the lengths of the maximal runs of `true`
in a boolean sequence, in order. -/
def runsTrue : List Bool → List ℕ
  | [] => []
  | false :: bs => runsTrue bs
  | true :: bs => ((bs.takeWhile id).length + 1) :: runsTrue (bs.dropWhile id)
termination_by l => l.length
decreasing_by
  all_goals simp
  exact Nat.lt_succ_of_le (List.dropWhile_sublist id).length_le

/-- Helper: the tail phase of the dry-spell loop, starting with a
current run of `cur` dry days. -/
def spell_acc (threshold : ℕ) : List Bool → ℕ → List ℕ
  | [], cur => if threshold ≤ cur then [cur] else []
  | true :: bs, cur => spell_acc threshold bs (cur + 1)
  | false :: bs, cur => (if threshold ≤ cur then [cur] else []) ++ spell_acc threshold bs 0

/-- One year of daily rainfall with a single 20-day dry (sub-1mm) span. -/
def dry_scenario : List ℚ :=
  List.replicate 100 5 ++ List.replicate 20 0 ++ List.replicate 245 5

/-- A validated dataframe: `date` (epoch day, never null after the
loader's `to_datetime`) plus one measurement column (`rainfall_mm`
when `is_rain`, else the temperature `mean`), with `none` for NaN;
`date_typed` models `is_datetime64_any_dtype(df['date'])`. -/
structure VDF where
  rows : List (ℤ × Option ℚ)
  is_rain : Bool
  date_typed : Bool
deriving DecidableEq, Repr

/-- `validation_status` values. -/
inductive VStatus where
  | PASSED
  | FAILED
  | ERROR
deriving DecidableEq, Repr

/-- The status-relevant part of a validation report: the four check
statuses and the overall `validation_status` (the informational
statistics/anomaly blocks do not influence the status). -/
structure VReport where
  dataset_name : String
  validation_status : VStatus
  missing_ok : Bool
  date_ok : Bool
  range_ok : Bool
  type_ok : Bool
  error_message : String
deriving DecidableEq, Repr

/-- `DataValidator._check_missing_values`: pass iff no nulls. -/
def _check_missing_values (df : VDF) : Bool :=
  df.rows.all (fun r => r.2.isSome)

/-- `DataValidator._check_date_continuity`: expected day count
`(max - min).days + 1` must equal the row count. -/
def _check_date_continuity (df : VDF) : Bool :=
  let ds := df.rows.map Prod.fst
  decide ((ds.max?.getD 0) - (ds.min?.getD 0) + 1 = (df.rows.length : ℤ))

/-- `DataValidator._check_value_ranges`: rainfall in `[0, 500]`,
temperature in `[-10, 55]`; a NaN cell compares `False` in pandas and
therefore fails `.all()`. -/
def _check_value_ranges (df : VDF) : Bool :=
  if df.is_rain then
    df.rows.all (fun r => match r.2 with
      | some v => decide (0 ≤ v ∧ v ≤ 500)
      | none => false)
  else
    df.rows.all (fun r => match r.2 with
      | some v => decide (-10 ≤ v ∧ v ≤ 55)
      | none => false)

/-- `DataValidator._check_data_types`: the date column must be a true
datetime dtype. -/
def _check_data_types (df : VDF) : Bool := df.date_typed

/-- The `try` body of `DataValidator._validate_dataframe`: on an empty
dataframe, formatting `df['date'].min()` (`NaT`) raises; otherwise the
four checks are computed and the overall status is `FAILED` iff any
check failed. -/
def _validate_dataframe_body (df : VDF) (name : String) : Except String VReport :=
  if df.rows.isEmpty then
    Except.error "empty dataset: formatting the date range raises"
  else
    let m := _check_missing_values df
    let d := _check_date_continuity df
    let r := _check_value_ranges df
    let t := _check_data_types df
    Except.ok
      { dataset_name := name
        validation_status := if m && d && r && t then VStatus.PASSED else VStatus.FAILED
        missing_ok := m
        date_ok := d
        range_ok := r
        type_ok := t
        error_message := "" }

/-- `DataValidator._validate_dataframe`: the `except` clause catches
any error raised by the body and returns a normal `ERROR`-status report
instead of re-raising. -/
def _validate_dataframe (df : VDF) (name : String) : VReport :=
  match _validate_dataframe_body df name with
  | Except.ok rep => rep
  | Except.error e =>
      { dataset_name := name
        validation_status := VStatus.ERROR
        missing_ok := false
        date_ok := false
        range_ok := false
        type_ok := false
        error_message := e }

/-- The `g` interpolated values strictly inside a gap between known
values `a` and `b`: `a + (b-a)·t/(g+1)` for `t = 1..g`. -/
def lerpGap (a b : ℚ) (g : ℕ) : List (Option ℚ) :=
  (List.range g).map (fun (t : ℕ) => some (a + (b - a) * (((t : ℚ) + 1) / ((g : ℚ) + 1))))

/-- `Series.interpolate(method='linear')` with pandas defaults: NaN
runs between two known values are filled linearly, NaN runs after the
last known value are padded with it, and leading NaNs are left
untouched.  `prev` is the last known value seen so far.  (After
`dropWhile isNone`, a non-empty tail always starts with a present
value, so the `getD` fallback in the gap branch is never exercised.) -/
def interpAux (prev : Option ℚ) : List (Option ℚ) → List (Option ℚ)
  | [] => []
  | some v :: rest => some v :: interpAux (some v) rest
  | none :: rest =>
    let g := (rest.takeWhile (fun o => o.isNone)).length + 1
    let tail := rest.dropWhile (fun o => o.isNone)
    match htail : tail with
    | [] =>
      match prev with
      | none => List.replicate g none
      | some a => List.replicate g (some a)
    | ob :: tail2 =>
      match prev with
      | none => List.replicate g none ++ interpAux none tail
      | some a =>
        let b := ob.getD a
        lerpGap a b g ++ some b :: interpAux (some b) tail2
termination_by l => l.length
decreasing_by
  · simp
  · simp
    calc (List.dropWhile (fun o => o.isNone) rest).length
        ≤ rest.length := (List.dropWhile_sublist _).length_le
      _ < rest.length + 1 := Nat.lt_succ_self _
  · simp
    have h1 : (ob :: tail2).length ≤ rest.length := by
      rw [← htail]; exact (List.dropWhile_sublist _).length_le
    simp at h1; omega

/-- `fillna(method='bfill')`: each NaN takes the next valid value. -/
def bfill : List (Option ℚ) → List (Option ℚ)
  | [] => []
  | some v :: rest => some v :: bfill rest
  | none :: rest => (rest.findSome? id) :: bfill rest

/-- `fillna(method='ffill')`: each NaN takes the last valid value
(`carry`). -/
def ffillAux (carry : Option ℚ) : List (Option ℚ) → List (Option ℚ)
  | [] => []
  | some v :: rest => some v :: ffillAux (some v) rest
  | none :: rest => carry :: ffillAux carry rest

/-- The interpolation pipeline of `DataValidator.validate_data`:
`interpolate(method='linear')`, then `fillna(method='bfill')`, then
`fillna(method='ffill')`, applied to the measurement column. -/
def interpolate_col (vs : List (Option ℚ)) : List (Option ℚ) :=
  ffillAux none (bfill (interpAux none vs))

/-- `missing_values.any()` over the dataframe copy. -/
def has_missing (df : VDF) : Bool := df.rows.any (fun r => r.2.isNone)

/-- The dataframe with its measurement column interpolated. -/
def clean_df (df : VDF) : VDF :=
  { df with rows := (df.rows.map Prod.fst).zip (interpolate_col (df.rows.map Prod.snd)) }

/-- One iteration of the `validate_data` loop: validate, and if any
value is missing, interpolate and re-validate; the cleaned dataframe
replaces the original. -/
def validate_one (df : VDF) (name : String) : VReport × VDF :=
  let report := _validate_dataframe df name
  if has_missing df then
    let df2 := clean_df df
    (_validate_dataframe df2 name, df2)
  else (report, df)

/-- `DataValidator.validate_data`: raises (wrapped) on empty input,
otherwise returns the quality reports and writes the cleaned
dataframes back into the input dict. -/
def validate_data (data : List (String × VDF)) :
    Except String (List (String × VReport) × List (String × VDF)) :=
  if data.isEmpty then
    Except.error "Error during data validation: No data provided for validation"
  else
    Except.ok
      (data.map (fun kv => (kv.1, (validate_one kv.2 kv.1).1)),
       data.map (fun kv => (kv.1, (validate_one kv.2 kv.1).2)))

/-- The `try/except` of `DataTransformer.transform`: any exception is
wrapped as `RuntimeError(f"Error during data transformation: {e}")`
and re-raised. -/
def transform_stage {α : Type} (body : Except String α) : Except String α :=
  match body with
  | Except.ok a => Except.ok a
  | Except.error e => Except.error ("Error during data transformation: " ++ e)

/-- The `try/except` of `DataValidator.validate_data`: any exception
escaping the loop is wrapped as
`RuntimeError(f"Error during data validation: {e}")` and re-raised. -/
def validate_data_stage {α : Type} (body : Except String α) : Except String α :=
  match body with
  | Except.ok a => Except.ok a
  | Except.error e => Except.error ("Error during data validation: " ++ e)

/-- `ClimateAnalyzer.analyze` has no `try/except`: exceptions from its
body propagate to the caller unchanged (not wrapped, not swallowed). -/
def analyze_stage {α : Type} (body : Except String α) : Except String α := body

/-- A concrete clean dataset for the C8 witness. -/
def c8_df : VDF :=
  { rows := [((0 : ℤ), some (1 : ℚ)), ((1 : ℤ), some (2 : ℚ))], is_rain := true, date_typed := true }

/-! ## Theorems -/

/-- C1: for every non-empty rainfall series with nonzero mean and every
non-empty temperature series, `calculate_resilience_score` returns the
arithmetic mean of the rainfall sub-score (100 − (std/mean)·50 −
(fraction below 0.8·mean)·100 − (fraction above 1.2·mean)·75, clamped
to [0,100]) and the temperature sub-score (100 − (fraction above 35)·100
− (fraction below 15)·75, clamped to [0,100]); the result lies in
[0,100]. -/
theorem C1_resilience_score_mean_of_subscores (rainfall temperature : List ℚ)
    (hr : rainfall ≠ []) (hm : listMean rainfall ≠ 0) (ht : temperature ≠ []) :
    ∃ s : ℝ,
      calculate_resilience_score rainfall temperature = some s ∧
      s = (max 0 (min 100 (100 - sampleStd rainfall / ((listMean rainfall : ℚ) : ℝ) * 50
              - ((fracIf rainfall (fun x => decide (x < 4 / 5 * listMean rainfall)) : ℚ) : ℝ) * 100
              - ((fracIf rainfall (fun x => decide (6 / 5 * listMean rainfall < x)) : ℚ) : ℝ) * 75))
           + max 0 (min 100 (100 - ((fracIf temperature (fun x => decide ((35 : ℚ) < x)) : ℚ) : ℝ) * 100
              - ((fracIf temperature (fun x => decide (x < (15 : ℚ))) : ℚ) : ℝ) * 75))) / 2 ∧
      0 ≤ s ∧ s ≤ 100 := by
  classical
  set A : ℝ := max 0 (min 100 (100 - sampleStd rainfall / ((listMean rainfall : ℚ) : ℝ) * 50
      - ((fracIf rainfall (fun x => decide (x < 4 / 5 * listMean rainfall)) : ℚ) : ℝ) * 100
      - ((fracIf rainfall (fun x => decide (6 / 5 * listMean rainfall < x)) : ℚ) : ℝ) * 75)) with hA
  set B : ℝ := max 0 (min 100 (100 - ((fracIf temperature (fun x => decide ((35 : ℚ) < x)) : ℚ) : ℝ) * 100
      - ((fracIf temperature (fun x => decide (x < (15 : ℚ))) : ℚ) : ℝ) * 75)) with hB
  have hcast : ((_temperature_resilience temperature : ℚ) : ℝ) = B := by
    rw [hB]
    simp only [_temperature_resilience, temp_stress_high, temp_stress_low]
    push_cast
    ring_nf
  refine ⟨(A + B) / 2, ?_, rfl, ?_, ?_⟩
  · simp only [calculate_resilience_score, _rainfall_resilience, drought_threshold,
      excess_threshold, if_neg hm]
    rw [hcast, Option.map_some', ← hA]
  · have h0A : (0 : ℝ) ≤ A := le_max_left _ _
    have h0B : (0 : ℝ) ≤ B := le_max_left _ _
    linarith
  · have hA' : A ≤ 100 := max_le (by norm_num) (min_le_left _ _)
    have hB' : B ≤ 100 := max_le (by norm_num) (min_le_left _ _)
    linarith

/-- Witness for C1 at rainfall `[2, 2]`, temperature `[20]`. -/
theorem C1_witness :
    (([2, 2] : List ℚ) ≠ [] ∧ listMean [2, 2] ≠ 0 ∧ ([20] : List ℚ) ≠ []) ∧
    (∃ s : ℝ,
      calculate_resilience_score [2, 2] [20] = some s ∧
      s = (max 0 (min 100 (100 - sampleStd [2, 2] / ((listMean [2, 2] : ℚ) : ℝ) * 50
              - ((fracIf [2, 2] (fun x => decide (x < 4 / 5 * listMean [2, 2])) : ℚ) : ℝ) * 100
              - ((fracIf [2, 2] (fun x => decide (6 / 5 * listMean [2, 2] < x)) : ℚ) : ℝ) * 75))
           + max 0 (min 100 (100 - ((fracIf [20] (fun x => decide ((35 : ℚ) < x)) : ℚ) : ℝ) * 100
              - ((fracIf [20] (fun x => decide (x < (15 : ℚ))) : ℚ) : ℝ) * 75))) / 2 ∧
      0 ≤ s ∧ s ≤ 100) :=
  ⟨⟨by decide, by norm_num [listMean], by decide⟩,
    C1_resilience_score_mean_of_subscores [2, 2] [20]
      (by decide) (by norm_num [listMean]) (by decide)⟩

/-- Every frequency (fraction of elements satisfying a condition) is
nonnegative. -/
theorem fracIf_nonneg (xs : List ℚ) (p : ℚ → Bool) : 0 ≤ fracIf xs p :=
  div_nonneg (Nat.cast_nonneg _) (Nat.cast_nonneg _)

/-- C5 counterexample: for the series `[-10]` (nonzero mean `-10`), the
value `-10` is strictly above `1.2 ×` the series mean (`-12`), yet the
code classifies it `Drought`, not `Excess Rain` — the claimed
biconditional "Excess Rain iff strictly above 1.2 times the mean" fails
for a nonzero (negative) mean. -/
theorem C5_counterexample :
    listMean [(-10 : ℚ)] ≠ 0 ∧
    6 / 5 * listMean [(-10 : ℚ)] < -10 ∧
    _classify_seasons [(-10 : ℚ)] = [Status.Drought] ∧
    Status.Drought ≠ Status.ExcessRain := by
  refine ⟨by norm_num [listMean], by norm_num [listMean], ?_, by decide⟩
  have hm : listMean [(-10 : ℚ)] = -10 := by norm_num [listMean]
  simp only [_classify_seasons, List.map_cons, List.map_nil, classify_value, hm]
  norm_num

/-- C5 (amended: the series mean must be positive, not merely nonzero):
for every seasonal series with positive mean, each value receives
exactly one label — `Drought` iff strictly below `0.8 ×` the series
mean, `Excess Rain` iff strictly above `1.2 ×` the series mean, and
`Normal` otherwise — so the classification is exhaustive and mutually
exclusive. -/
theorem C5_classification_trichotomy (series : List ℚ) (hm : 0 < listMean series)
    (x : ℚ) (hx : x ∈ series) :
    (classify_value (listMean series) x = Status.Drought ↔ x < 4 / 5 * listMean series) ∧
    (classify_value (listMean series) x = Status.ExcessRain ↔ 6 / 5 * listMean series < x) ∧
    (classify_value (listMean series) x = Status.Normal ↔
      ¬ x < 4 / 5 * listMean series ∧ ¬ 6 / 5 * listMean series < x) ∧
    _classify_seasons series = series.map (classify_value (listMean series)) := by
  refine ⟨?_, ?_, ?_, rfl⟩ <;> unfold classify_value <;> split_ifs with h1 h2 <;>
    simp_all <;> linarith

/-- Witness for C5 at series `[10]`, value `10`. -/
theorem C5_witness :
    (0 < listMean [(10 : ℚ)] ∧ (10 : ℚ) ∈ [(10 : ℚ)]) ∧
    ((classify_value (listMean [(10 : ℚ)]) 10 = Status.Drought ↔ (10 : ℚ) < 4 / 5 * listMean [(10 : ℚ)]) ∧
     (classify_value (listMean [(10 : ℚ)]) 10 = Status.ExcessRain ↔ 6 / 5 * listMean [(10 : ℚ)] < 10) ∧
     (classify_value (listMean [(10 : ℚ)]) 10 = Status.Normal ↔
       ¬ (10 : ℚ) < 4 / 5 * listMean [(10 : ℚ)] ∧ ¬ 6 / 5 * listMean [(10 : ℚ)] < 10) ∧
     _classify_seasons [(10 : ℚ)] = [(10 : ℚ)].map (classify_value (listMean [(10 : ℚ)]))) :=
  ⟨⟨by norm_num [listMean], by simp⟩,
    C5_classification_trichotomy [(10 : ℚ)] (by norm_num [listMean]) 10 (by simp)⟩

/-- Helper: the length of a `flatMap` whose pieces all have length `k`. -/
theorem flatMap_const_length {α β : Type} (l : List α) (g : α → List β) (k : ℕ)
    (h : ∀ a, (g a).length = k) : (l.flatMap g).length = k * l.length := by
  induction l with
  | nil => simp
  | cons a t ih => simp [List.flatMap_cons, h, ih, Nat.mul_succ, Nat.add_comm]

/-- Helper: the economic-impact table has `#crops` rows per
classification entry. -/
theorem econ_impact_length (classification : List (List Char × List (ℤ × Status))) :
    (_calculate_economic_impact classification).length
      = crop_info.length * (classification.map (fun rk => rk.2.length)).sum := by
  unfold _calculate_economic_impact
  induction classification with
  | nil => simp
  | cons a t ih =>
    simp only [List.flatMap_cons, List.length_append, List.map_cons, List.sum_cons, ih,
      Nat.mul_add]
    congr 1
    exact flatMap_const_length _ _ _ (fun ys => by simp)

/-- C4: the economic-impact table has exactly `#crops` rows per
(region-key, year) classification entry — row count `=`
(#region-season-year combinations) `×` (#crops, which is 5) — and every
row's estimated loss is (impact percentage ÷ 100) × area × yield ×
price for its crop, with impact −20 for Drought, −10 for Excess Rain
and 0 for Normal; in particular every `Normal` row has loss exactly 0. -/
theorem C4_economic_impact (classification : List (List Char × List (ℤ × Status)))
    (row : LossRow) (hrow : row ∈ _calculate_economic_impact classification) :
    (_calculate_economic_impact classification).length
        = crop_info.length * (classification.map (fun rk => rk.2.length)).sum ∧
    crop_info.length = 5 ∧
    (∃ ci : CropInfo, (row.crop, ci) ∈ crop_info ∧
      row.base_yield = ci.area * ci.yield ∧
      row.base_revenue = ci.area * ci.yield * ci.price ∧
      row.estimated_loss =
        ((impact_map row.status : ℤ) : ℚ) / 100 * ((ci.area * ci.yield * ci.price : ℕ) : ℚ) ∧
      impact_map Status.Drought = -20 ∧ impact_map Status.ExcessRain = -10 ∧
      impact_map Status.Normal = 0) ∧
    (row.status = Status.Normal → row.estimated_loss = 0) := by
  simp only [_calculate_economic_impact, List.mem_flatMap, List.mem_map] at hrow
  obtain ⟨rk, hrk, ys, hys, cv, hcv, rfl⟩ := hrow
  refine ⟨econ_impact_length classification, rfl, ⟨cv.2, ?_, rfl, rfl, rfl, rfl, rfl, rfl⟩, ?_⟩
  · rw [Prod.mk.eta]; exact hcv
  · intro h
    simp only at h
    simp [h, impact_map]

/-- Helper: the witness table is non-empty, so its head is a member. -/
theorem econ_witness_head_mem :
    (_calculate_economic_impact econ_witness_input).headD default_loss_row
      ∈ _calculate_economic_impact econ_witness_input := by
  have hlen := econ_impact_length econ_witness_input
  rcases hL : _calculate_economic_impact econ_witness_input with _ | ⟨a, t⟩
  · rw [hL] at hlen
    simp [econ_witness_input, crop_info] at hlen
  · simp

/-- Witness for C4 at the head row of the table built from
`econ_witness_input`. -/
theorem C4_witness :
    ((_calculate_economic_impact econ_witness_input).headD default_loss_row
        ∈ _calculate_economic_impact econ_witness_input) ∧
    ((_calculate_economic_impact econ_witness_input).length
        = crop_info.length * (econ_witness_input.map (fun rk => rk.2.length)).sum ∧
     crop_info.length = 5 ∧
     (∃ ci : CropInfo,
       (((_calculate_economic_impact econ_witness_input).headD default_loss_row).crop, ci) ∈ crop_info ∧
       ((_calculate_economic_impact econ_witness_input).headD default_loss_row).base_yield
          = ci.area * ci.yield ∧
       ((_calculate_economic_impact econ_witness_input).headD default_loss_row).base_revenue
          = ci.area * ci.yield * ci.price ∧
       ((_calculate_economic_impact econ_witness_input).headD default_loss_row).estimated_loss
          = ((impact_map ((_calculate_economic_impact econ_witness_input).headD default_loss_row).status : ℤ) : ℚ)
              / 100 * ((ci.area * ci.yield * ci.price : ℕ) : ℚ) ∧
       impact_map Status.Drought = -20 ∧ impact_map Status.ExcessRain = -10 ∧
       impact_map Status.Normal = 0) ∧
     (((_calculate_economic_impact econ_witness_input).headD default_loss_row).status = Status.Normal →
       ((_calculate_economic_impact econ_witness_input).headD default_loss_row).estimated_loss = 0)) :=
  ⟨econ_witness_head_mem,
    C4_economic_impact econ_witness_input _ econ_witness_head_mem⟩

/-- C2: for every region (non-empty monthly rainfall and temperature
series), the infrastructure risk score is exactly ((fraction of monthly
rainfall values strictly above the rainfall series' 95th percentile)·50
+ (fraction of monthly temperatures strictly above the temperature
series' 95th percentile)·50), then multiplied by 100 and clamped to
[0,100] — the extra ×100 amplification is applied verbatim. -/
theorem C2_infrastructure_risk (precip_rainfall temp_mean : List ℚ)
    (hp : precip_rainfall ≠ []) (ht : temp_mean ≠ []) :
    _assess_infrastructure precip_rainfall temp_mean
        = max 0 (min 100
            ((fracIf precip_rainfall (fun x => decide (quantile95 precip_rainfall < x)) * 50
              + fracIf temp_mean (fun x => decide (quantile95 temp_mean < x)) * 50) * 100)) ∧
    0 ≤ _assess_infrastructure precip_rainfall temp_mean ∧
    _assess_infrastructure precip_rainfall temp_mean ≤ 100 := by
  have hfp := fracIf_nonneg precip_rainfall (fun x => decide (quantile95 precip_rainfall < x))
  have hft := fracIf_nonneg temp_mean (fun x => decide (quantile95 temp_mean < x))
  have hnn : (0 : ℚ) ≤ (fracIf precip_rainfall (fun x => decide (quantile95 precip_rainfall < x)) * 50
      + fracIf temp_mean (fun x => decide (quantile95 temp_mean < x)) * 50) * 100 := by positivity
  have hmin : (0 : ℚ) ≤ min 100 ((fracIf precip_rainfall (fun x => decide (quantile95 precip_rainfall < x)) * 50
      + fracIf temp_mean (fun x => decide (quantile95 temp_mean < x)) * 50) * 100) :=
    le_min (by norm_num) hnn
  refine ⟨?_, ?_, ?_⟩
  · unfold _assess_infrastructure
    rw [max_eq_right hmin]
  · unfold _assess_infrastructure
    exact le_min (by norm_num) hnn
  · unfold _assess_infrastructure
    exact min_le_left _ _

/-- Witness for C2 at monthly rainfall `[1, 2]`, monthly temperature `[3]`. -/
theorem C2_witness :
    (([1, 2] : List ℚ) ≠ [] ∧ ([3] : List ℚ) ≠ []) ∧
    (_assess_infrastructure [1, 2] [3]
        = max 0 (min 100
            ((fracIf [1, 2] (fun x => decide (quantile95 [1, 2] < x)) * 50
              + fracIf [3] (fun x => decide (quantile95 [3] < x)) * 50) * 100)) ∧
     0 ≤ _assess_infrastructure [1, 2] [3] ∧
     _assess_infrastructure [1, 2] [3] ≤ 100) :=
  ⟨⟨by decide, by decide⟩, C2_infrastructure_risk [1, 2] [3] (by decide) (by decide)⟩

/-- Helper: every calendar year of a row of the grouped dataframe shows
up as a key of the aggregate. -/
theorem groupby_year_mean_mem (rows : List SRow) (r : SRow) (hr : r ∈ rows) :
    ∃ m : ℚ, (r.year, m) ∈ groupby_year_mean rows := by
  refine ⟨listMean ((rows.filter (fun s => s.year == r.year)).map SRow.rainfall_mm), ?_⟩
  unfold groupby_year_mean
  have hy : r.year ∈ ((rows.map SRow.year).dedup).mergeSort (fun a b => decide (a ≤ b)) := by
    rw [List.mem_mergeSort, List.mem_dedup]
    exact List.mem_map_of_mem SRow.year hr
  exact List.mem_map_of_mem _ hy

/-- C3: seasonal aggregation groups by the row's own calendar year, so
a Rabi season spanning Nov–Dec of year `Y` and Jan–Mar of year `Y+1`
appears as two separate (year, mean) entries of the Rabi aggregate: any
two Rabi-month rows with different calendar years produce two distinct
entries under the same Rabi label. -/
theorem C3_rabi_year_split (rows : List SRow) (r1 r2 : SRow)
    (h1 : r1 ∈ rows) (h2 : r2 ∈ rows)
    (hm1 : rabi_months.contains r1.month = true)
    (hm2 : rabi_months.contains r2.month = true)
    (hy : r1.year ≠ r2.year) :
    ∃ m1 m2 : ℚ,
      (r1.year, m1) ∈ seasonal_rabi rows ∧
      (r2.year, m2) ∈ seasonal_rabi rows ∧
      (r1.year, m1) ≠ (r2.year, m2) := by
  obtain ⟨m1, hmem1⟩ := groupby_year_mean_mem (rows.filter (fun r => rabi_months.contains r.month)) r1
    (List.mem_filter.mpr ⟨h1, hm1⟩)
  obtain ⟨m2, hmem2⟩ := groupby_year_mean_mem (rows.filter (fun r => rabi_months.contains r.month)) r2
    (List.mem_filter.mpr ⟨h2, hm2⟩)
  exact ⟨m1, m2, hmem1, hmem2, by simp [Prod.ext_iff]; intro h; exact absurd h hy⟩

/-- Witness for C3: rows `(2020, Nov)` and `(2021, Jan)` — one Rabi
season split across two year buckets. -/
theorem C3_witness :
    (⟨2020, 11, 10⟩ ∈ ([⟨2020, 11, 10⟩, ⟨2021, 1, 20⟩] : List SRow) ∧
     ⟨2021, 1, 20⟩ ∈ ([⟨2020, 11, 10⟩, ⟨2021, 1, 20⟩] : List SRow) ∧
     rabi_months.contains (SRow.month ⟨2020, 11, 10⟩) = true ∧
     rabi_months.contains (SRow.month ⟨2021, 1, 20⟩) = true ∧
     SRow.year ⟨2020, 11, 10⟩ ≠ SRow.year ⟨2021, 1, 20⟩) ∧
    (∃ m1 m2 : ℚ,
      ((2020 : ℤ), m1) ∈ seasonal_rabi [⟨2020, 11, 10⟩, ⟨2021, 1, 20⟩] ∧
      ((2021 : ℤ), m2) ∈ seasonal_rabi [⟨2020, 11, 10⟩, ⟨2021, 1, 20⟩] ∧
      ((2020 : ℤ), m1) ≠ ((2021 : ℤ), m2)) :=
  ⟨⟨by simp, by simp, by decide, by decide, by decide⟩,
    C3_rabi_year_split [⟨2020, 11, 10⟩, ⟨2021, 1, 20⟩] ⟨2020, 11, 10⟩ ⟨2021, 1, 20⟩
      (by simp) (by simp) (by decide) (by decide) (by decide)⟩

/-- C10: a day whose temperature or rainfall is missing is always
counted as stressed: the optimal-temperature and adequate-rain flags
are `False` on missing values, so such a row satisfies
`stress_day` and is counted by the stress percentage. -/
theorem C10_missing_counts_stressed (rows : List CropRow) (r : CropRow)
    (hr : r ∈ rows) (hmiss : r.mean = none ∨ r.rainfall_mm = none) :
    stress_day r = true ∧
    r ∈ rows.filter stress_day ∧
    stress_percentage rows = ((rows.filter stress_day).length : ℚ) / (rows.length : ℚ) * 100 := by
  have hs : stress_day r = true := by
    rcases hmiss with h | h
    · simp [stress_day, optimal_temp, h]
    · simp [stress_day, adequate_rain, h]
  exact ⟨hs, List.mem_filter.mpr ⟨hr, hs⟩, rfl⟩

/-- Witness for C10 at a single row with missing temperature. -/
theorem C10_witness :
    ((⟨none, some 10⟩ : CropRow) ∈ ([⟨none, some 10⟩] : List CropRow) ∧
     (CropRow.mean ⟨none, some 10⟩ = none ∨ CropRow.rainfall_mm ⟨none, some 10⟩ = none)) ∧
    (stress_day ⟨none, some 10⟩ = true ∧
     (⟨none, some 10⟩ : CropRow) ∈ ([⟨none, some 10⟩] : List CropRow).filter stress_day ∧
     stress_percentage [⟨none, some 10⟩]
        = ((([⟨none, some 10⟩] : List CropRow).filter stress_day).length : ℚ)
            / (([⟨none, some 10⟩] : List CropRow).length : ℚ) * 100) :=
  ⟨⟨by simp, Or.inl rfl⟩,
    C10_missing_counts_stressed [⟨none, some 10⟩] ⟨none, some 10⟩ (by simp) (Or.inl rfl)⟩

/-- Helper: `takeWhile id` strips exactly the leading `true` block. -/
theorem takeWhile_id_rep_false (k : ℕ) (bs : List Bool) :
    ((List.replicate k true ++ false :: bs).takeWhile id) = List.replicate k true := by
  induction k with
  | zero => simp [List.takeWhile_cons]
  | succ n ih => simp [List.replicate_succ, List.takeWhile_cons, ih]

/-- Helper: `dropWhile id` drops exactly the leading `true` block. -/
theorem dropWhile_id_rep_false (k : ℕ) (bs : List Bool) :
    ((List.replicate k true ++ false :: bs).dropWhile id) = false :: bs := by
  induction k with
  | zero => simp [List.dropWhile_cons]
  | succ n ih => simp [List.replicate_succ, List.dropWhile_cons, ih]

/-- Helper: `takeWhile id` keeps an all-`true` list. -/
theorem takeWhile_id_rep (k : ℕ) :
    ((List.replicate k true).takeWhile id) = List.replicate k true := by
  induction k with
  | zero => simp
  | succ n ih => simp [List.replicate_succ, List.takeWhile_cons, ih]

/-- Helper: `dropWhile id` empties an all-`true` list. -/
theorem dropWhile_id_rep (k : ℕ) :
    ((List.replicate k true).dropWhile id) = [] := by
  induction k with
  | zero => simp
  | succ n ih => simp [List.replicate_succ, List.dropWhile_cons, ih]

/-- Helper: the dry-spell loop from any accumulator equals the already
emitted spells followed by the tail phase. -/
theorem dry_foldl_eq (th : ℕ) (bs : List Bool) : ∀ (spells : List ℕ) (cur : ℕ),
    (if th ≤ (bs.foldl (dry_step th) (spells, cur)).2
     then (bs.foldl (dry_step th) (spells, cur)).1 ++ [(bs.foldl (dry_step th) (spells, cur)).2]
     else (bs.foldl (dry_step th) (spells, cur)).1)
      = spells ++ spell_acc th bs cur := by
  induction bs with
  | nil =>
    intro spells cur
    simp only [List.foldl_nil, spell_acc]
    split <;> simp
  | cons b bs ih =>
    intro spells cur
    cases b
    · simp only [List.foldl_cons, dry_step, Bool.false_eq_true, if_false]
      by_cases h : th ≤ cur
      · simp only [if_pos h, ih, spell_acc, if_pos h, List.append_assoc, List.cons_append,
          List.nil_append]
      · simp only [if_neg h, ih, spell_acc, if_neg h, List.nil_append]
    · simp only [List.foldl_cons, dry_step, if_true, ih, spell_acc]

/-- Helper: the tail phase starting inside a run of `cur` dry days
computes exactly the filtered maximal run lengths. -/
theorem spell_acc_eq (th : ℕ) (hth : 0 < th) (bs : List Bool) : ∀ cur : ℕ,
    spell_acc th bs cur
      = (runsTrue (List.replicate cur true ++ bs)).filter (fun n => decide (th ≤ n)) := by
  induction bs with
  | nil =>
    intro cur
    cases cur with
    | zero =>
      have : ¬ th ≤ 0 := by omega
      simp [spell_acc, runsTrue, this]
    | succ k =>
      simp only [spell_acc, List.append_nil, List.replicate_succ, runsTrue,
        takeWhile_id_rep, dropWhile_id_rep, List.length_replicate, List.filter_cons]
      split <;> simp_all
  | cons b bs ih =>
    intro cur
    cases b
    · cases cur with
      | zero =>
        simp only [spell_acc, List.replicate, List.nil_append, runsTrue]
        have h0 : ¬ th ≤ 0 := by omega
        simp [h0, ih 0]
      | succ k =>
        simp only [spell_acc, List.replicate_succ, List.cons_append, runsTrue,
          takeWhile_id_rep_false, dropWhile_id_rep_false, List.length_replicate,
          List.filter_cons, decide_eq_true_eq]
        have hbs := ih 0
        simp only [List.replicate, List.nil_append] at hbs
        by_cases hk : th ≤ k + 1
        · simp [hk, hbs]
        · simp [hk, hbs]
    · have hrep : List.replicate cur true ++ true :: bs = List.replicate (cur + 1) true ++ bs := by
        simp [List.replicate_succ', List.append_assoc]
      simp only [spell_acc, hrep, ih]

/-- C9: for every rainfall series and positive minimum length,
`_find_dry_spells` returns exactly the lengths (in order) of the
maximal runs of consecutive days with rainfall below 1mm whose length
is at least the minimum; on one year of daily data containing a single
20-day sub-1mm span with the default 15-day minimum, the result is one
spell of duration 20 and the reported maximum duration is 20. -/
theorem C9_dry_spells :
    (∀ (rainfall : List ℚ) (threshold : ℕ), 0 < threshold →
      _find_dry_spells rainfall threshold
        = (runsTrue (rainfall.map (fun x => decide (x < 1)))).filter
            (fun n => decide (threshold ≤ n))) ∧
    dry_spell_threshold = 15 ∧
    _find_dry_spells dry_scenario dry_spell_threshold = [20] ∧
    max_duration (_find_dry_spells dry_scenario dry_spell_threshold) = 20 := by
  refine ⟨?_, rfl, by decide, by decide⟩
  intro rainfall threshold hth
  unfold _find_dry_spells
  have h := dry_foldl_eq threshold (rainfall.map (fun x => decide (x < 1))) [] 0
  simp only [List.nil_append] at h
  rw [h, spell_acc_eq threshold hth _ 0]
  simp

/-- Witness for C9 at the one-day series `[0]` and threshold 15. -/
theorem C9_witness :
    0 < 15 ∧
    _find_dry_spells [(0 : ℚ)] 15
      = (runsTrue (([(0 : ℚ)]).map (fun x => decide (x < 1)))).filter
          (fun n => decide (15 ≤ n)) :=
  ⟨by decide, C9_dry_spells.1 [(0 : ℚ)] 15 (by decide)⟩

/-- Helper: a column whose cells are all NaN is a `replicate` of `none`. -/
theorem allNone_eq_replicate (l : List (Option ℚ)) (h : l.all (fun o => o.isNone) = true) :
    l = List.replicate l.length none := by
  induction l with
  | nil => rfl
  | cons a t ih =>
    simp only [List.all_cons, Bool.and_eq_true] at h
    cases a with
    | some v => simp at h
    | none =>
      simp only [List.length_cons, List.replicate_succ]
      exact congrArg (List.cons none) (ih h.2)

/-- Helper: `takeWhile isNone` keeps an all-NaN column. -/
theorem takeWhile_isNone_replicate (n : ℕ) :
    (List.replicate n (none : Option ℚ)).takeWhile (fun o => o.isNone) = List.replicate n none := by
  induction n with
  | zero => rfl
  | succ k ih => simp [List.replicate_succ, List.takeWhile_cons, ih]

/-- Helper: `dropWhile isNone` empties an all-NaN column. -/
theorem dropWhile_isNone_replicate (n : ℕ) :
    (List.replicate n (none : Option ℚ)).dropWhile (fun o => o.isNone) = [] := by
  induction n with
  | zero => rfl
  | succ k ih => simp [List.replicate_succ, List.dropWhile_cons, ih]

/-- Helper: linear interpolation leaves an all-NaN column unchanged. -/
theorem interpAux_none_replicate (n : ℕ) :
    interpAux none (List.replicate n none) = List.replicate n none := by
  cases n with
  | zero => simp [interpAux]
  | succ k =>
    rw [List.replicate_succ, interpAux]
    simp only [takeWhile_isNone_replicate, List.length_replicate]
    split
    · simp [List.replicate_succ]
    · next ob tail2 heq =>
        rw [dropWhile_isNone_replicate] at heq
        exact absurd heq (by simp)

/-- Helper: no valid value is found in an all-NaN column. -/
theorem findSome?_replicate_none (n : ℕ) :
    (List.replicate n (none : Option ℚ)).findSome? id = none := by
  induction n with
  | zero => rfl
  | succ k ih => simp [List.replicate_succ, List.findSome?_cons, ih]

/-- Helper: backward fill leaves an all-NaN column unchanged. -/
theorem bfill_replicate_none (n : ℕ) :
    bfill (List.replicate n (none : Option ℚ)) = List.replicate n none := by
  induction n with
  | zero => rfl
  | succ k ih =>
    simp [List.replicate_succ, bfill, findSome?_replicate_none, ih]

/-- Helper: forward fill leaves an all-NaN column unchanged. -/
theorem ffillAux_replicate_none (n : ℕ) :
    ffillAux none (List.replicate n (none : Option ℚ)) = List.replicate n none := by
  induction n with
  | zero => rfl
  | succ k ih => simp [List.replicate_succ, ffillAux, ih]

/-- An all-NaN column is a fixed point of the interpolation pipeline
(there is no value to interpolate or fill from). -/
theorem interpolate_col_all_none (vs : List (Option ℚ))
    (h : vs.all (fun o => o.isNone) = true) : interpolate_col vs = vs := by
  have hrep := allNone_eq_replicate vs h
  rw [interpolate_col, hrep, interpAux_none_replicate, bfill_replicate_none,
    ffillAux_replicate_none]

/-- Helper: the first element surviving `dropWhile isNone` is present. -/
theorem dropWhile_isNone_cons_isSome (l : List (Option ℚ)) (ob : Option ℚ) (t2 : List (Option ℚ))
    (h : l.dropWhile (fun o => o.isNone) = ob :: t2) : ob.isSome = true := by
  induction l with
  | nil => simp at h
  | cons x xs ih =>
    rw [List.dropWhile_cons] at h
    by_cases hx : x.isNone = true
    · rw [if_pos hx] at h
      exact ih h
    · rw [if_neg hx] at h
      injection h with h1 h2
      subst h1
      cases x with
      | none => simp at hx
      | some v => rfl

/-- Helper: interpolated gap values are all present. -/
theorem lerpGap_all_isSome (a b : ℚ) (g : ℕ) :
    (lerpGap a b g).all (fun o => o.isSome) = true := by
  rw [lerpGap, List.all_eq_true]
  intro o ho
  rw [List.mem_map] at ho
  obtain ⟨t, ht, rfl⟩ := ho
  rfl

/-- Helper: once a valid previous value exists, linear interpolation
(with its trailing pad) leaves no NaN behind. -/
theorem interpAux_all_isSome : ∀ (prev : Option ℚ) (l : List (Option ℚ)),
    prev.isSome = true → (interpAux prev l).all (fun o => o.isSome) = true := by
  intro prev l
  induction prev, l using interpAux.induct with
  | case1 prev =>
    intro h
    simp [interpAux]
  | case2 prev v rest ih =>
    intro h
    rw [interpAux]
    simpa using ih rfl
  | case3 rest tail htail =>
    intro h
    simp at h
  | case4 rest tail htail a =>
    intro h
    rw [interpAux]
    split
    · simp [List.all_eq_true, List.eq_of_mem_replicate]
    · next ob2 tail2 heq =>
        have hcon : (ob2 :: tail2 : List (Option ℚ)) = [] := by rw [← heq]; exact htail
        simp at hcon
  | case5 rest tail ob tail2 htail ih =>
    intro h
    simp at h
  | case6 rest tail ob tail2 htail a b ih =>
    intro h
    rw [interpAux]
    split
    · next heq =>
        have h2 : List.dropWhile (fun o => o.isNone) rest = ob :: tail2 := htail
        rw [heq] at h2
        exact absurd h2 (by simp)
    · next ob2 tail2b heq =>
        have h2 : List.dropWhile (fun o => o.isNone) rest = ob :: tail2 := htail
        rw [h2] at heq
        injection heq with he1 he2
        subst he1
        subst he2
        simp only [List.all_append, List.all_cons, Bool.and_eq_true]
        exact ⟨lerpGap_all_isSome _ _ _, rfl, ih rfl⟩

/-- Helper: the first equation of `interpAux` on a present head. -/
theorem interpAux_cons_some (prev : Option ℚ) (v : ℚ) (rest : List (Option ℚ)) :
    interpAux prev (some v :: rest) = some v :: interpAux (some v) rest := by
  rw [interpAux]

/-- Helper: the shape of a linearly interpolated column that contains
at least one value: leading NaNs, then a present value, then only
present values. -/
theorem interpAux_none_shape (vs : List (Option ℚ)) (h : vs.any (fun o => o.isSome) = true) :
    ∃ (g : ℕ) (a : ℚ) (w2 : List (Option ℚ)),
      interpAux none vs = List.replicate g none ++ some a :: w2 ∧
      w2.all (fun o => o.isSome) = true := by
  cases vs with
  | nil => simp at h
  | cons o rest =>
    cases o with
    | some v =>
      exact ⟨0, v, interpAux (some v) rest, by rw [interpAux_cons_some]; rfl,
        interpAux_all_isSome _ _ rfl⟩
    | none =>
      have hrest : rest.any (fun o => o.isSome) = true := by simpa using h
      rcases htail : rest.dropWhile (fun o => o.isNone) with _ | ⟨ob, tail2⟩
      · exfalso
        rw [List.dropWhile_eq_nil_iff] at htail
        rw [List.any_eq_true] at hrest
        obtain ⟨x, hx, hxs⟩ := hrest
        have := htail x hx
        cases x <;> simp_all
      · have hob := dropWhile_isNone_cons_isSome rest ob tail2 htail
        obtain ⟨bv, rfl⟩ := Option.isSome_iff_exists.mp hob
        refine ⟨(rest.takeWhile (fun o => o.isNone)).length + 1, bv,
          interpAux (some bv) tail2, ?_, interpAux_all_isSome _ _ rfl⟩
        rw [interpAux]
        split
        · next heq =>
            rw [htail] at heq
            exact absurd heq (by simp)
        · next ob2 tail2b heq =>
            rw [htail] at heq
            injection heq with he1 he2
            subst he1
            subst he2
            rw [htail, interpAux_cons_some]

/-- Helper: backward fill is the identity on a complete column. -/
theorem bfill_of_all_isSome (l : List (Option ℚ)) (h : l.all (fun o => o.isSome) = true) :
    bfill l = l := by
  induction l with
  | nil => rfl
  | cons o rest ih =>
    simp only [List.all_cons, Bool.and_eq_true] at h
    cases o with
    | none => simp at h
    | some v => rw [bfill, ih h.2]

/-- Helper: the first valid value after a leading NaN block. -/
theorem findSome?_replicate_append (g : ℕ) (a : ℚ) (l2 : List (Option ℚ)) :
    (List.replicate g none ++ some a :: l2).findSome? id = some a := by
  induction g with
  | zero => simp [List.findSome?_cons]
  | succ k ih => simpa [List.replicate_succ, List.findSome?_cons] using ih

/-- Helper: backward fill completes a column whose only NaNs lead. -/
theorem bfill_shape (g : ℕ) (a : ℚ) (l2 : List (Option ℚ))
    (h : l2.all (fun o => o.isSome) = true) :
    (bfill (List.replicate g none ++ some a :: l2)).all (fun o => o.isSome) = true := by
  induction g with
  | zero =>
    simp only [List.replicate, List.nil_append, bfill]
    rw [bfill_of_all_isSome l2 h]
    simpa using h
  | succ k ih =>
    rw [List.replicate_succ, List.cons_append, bfill]
    simp only [List.all_cons, Bool.and_eq_true]
    exact ⟨by rw [findSome?_replicate_append]; rfl, ih⟩

/-- Helper: forward fill is the identity on a complete column. -/
theorem ffillAux_of_all_isSome (carry : Option ℚ) (l : List (Option ℚ))
    (h : l.all (fun o => o.isSome) = true) : ffillAux carry l = l := by
  induction l generalizing carry with
  | nil => rfl
  | cons o rest ih =>
    simp only [List.all_cons, Bool.and_eq_true] at h
    cases o with
    | none => simp at h
    | some v => rw [ffillAux, ih _ h.2]

/-- A column with at least one value is complete after one
interpolation pass (linear + bfill + ffill). -/
theorem interpolate_col_all_isSome (vs : List (Option ℚ))
    (h : vs.any (fun o => o.isSome) = true) :
    (interpolate_col vs).all (fun o => o.isSome) = true := by
  obtain ⟨g, a, w2, heq, hw⟩ := interpAux_none_shape vs h
  rw [interpolate_col, heq]
  have hb := bfill_shape g a w2 hw
  rw [ffillAux_of_all_isSome none _ hb]
  exact hb

/-- Helper: the number of interior gap values. -/
theorem lerpGap_length (x y : ℚ) (n : ℕ) : (lerpGap x y n).length = n := by
  rw [lerpGap, List.length_map, List.length_range]

/-- Interpolation preserves the number of rows. -/
theorem interpAux_length : ∀ (prev : Option ℚ) (l : List (Option ℚ)),
    (interpAux prev l).length = l.length := by
  intro prev l
  induction prev, l using interpAux.induct with
  | case1 prev => simp [interpAux]
  | case2 prev v rest ih => rw [interpAux_cons_some]; simp [ih]
  | case3 rest tail htail =>
    have hlen : (rest.takeWhile (fun o => o.isNone)).length
        + (rest.dropWhile (fun o => o.isNone)).length = rest.length := by
      rw [← List.length_append, List.takeWhile_append_dropWhile]
    have hd : (rest.dropWhile (fun o => o.isNone)).length = 0 := by
      have hx : List.dropWhile (fun o => o.isNone) rest = [] := htail
      simp [hx]
    rw [interpAux]
    split
    · simp only [List.length_replicate, List.length_cons]
      omega
    · next ob2 tail2 heq =>
        have hcon : (ob2 :: tail2 : List (Option ℚ)) = [] := by rw [← heq]; exact htail
        simp at hcon
  | case4 rest tail htail a =>
    have hlen : (rest.takeWhile (fun o => o.isNone)).length
        + (rest.dropWhile (fun o => o.isNone)).length = rest.length := by
      rw [← List.length_append, List.takeWhile_append_dropWhile]
    have hd : (rest.dropWhile (fun o => o.isNone)).length = 0 := by
      have hx : List.dropWhile (fun o => o.isNone) rest = [] := htail
      simp [hx]
    rw [interpAux]
    split
    · simp only [List.length_replicate, List.length_cons]
      omega
    · next ob2 tail2 heq =>
        have hcon : (ob2 :: tail2 : List (Option ℚ)) = [] := by rw [← heq]; exact htail
        simp at hcon
  | case5 rest tail ob tail2 htail ih =>
    have hlen : (rest.takeWhile (fun o => o.isNone)).length
        + (rest.dropWhile (fun o => o.isNone)).length = rest.length := by
      rw [← List.length_append, List.takeWhile_append_dropWhile]
    rw [interpAux]
    split
    · next heq =>
        have h2 : List.dropWhile (fun o => o.isNone) rest = ob :: tail2 := htail
        rw [heq] at h2
        exact absurd h2 (by simp)
    · next ob2 tail2b heq =>
        have hb : tail.length = (List.dropWhile (fun o => o.isNone) rest).length := rfl
        simp only [List.length_append, List.length_replicate, List.length_cons, ih, hb]
        omega
  | case6 rest tail ob tail2 htail a b ih =>
    have hlen : (rest.takeWhile (fun o => o.isNone)).length
        + (rest.dropWhile (fun o => o.isNone)).length = rest.length := by
      rw [← List.length_append, List.takeWhile_append_dropWhile]
    have hd : (rest.dropWhile (fun o => o.isNone)).length = tail2.length + 1 := by
      have h2 : List.dropWhile (fun o => o.isNone) rest = ob :: tail2 := htail
      simp [h2]
    rw [interpAux]
    split
    · next heq =>
        have h2 : List.dropWhile (fun o => o.isNone) rest = ob :: tail2 := htail
        rw [heq] at h2
        exact absurd h2 (by simp)
    · next ob2 tail2b heq =>
        have h2 : List.dropWhile (fun o => o.isNone) rest = ob :: tail2 := htail
        rw [h2] at heq
        injection heq with he1 he2
        subst he1
        subst he2
        simp only [List.length_append, List.length_cons, ih, lerpGap_length]
        omega

/-- Backward fill preserves the number of rows. -/
theorem bfill_length (l : List (Option ℚ)) : (bfill l).length = l.length := by
  induction l with
  | nil => rfl
  | cons o rest ih => cases o <;> simp [bfill, ih]

/-- Forward fill preserves the number of rows. -/
theorem ffillAux_length (carry : Option ℚ) (l : List (Option ℚ)) :
    (ffillAux carry l).length = l.length := by
  induction l generalizing carry with
  | nil => rfl
  | cons o rest ih => cases o <;> simp [ffillAux, ih]

/-- The interpolation pipeline preserves the number of rows. -/
theorem interpolate_col_length (vs : List (Option ℚ)) :
    (interpolate_col vs).length = vs.length := by
  rw [interpolate_col, ffillAux_length, bfill_length, interpAux_length]

/-- Helper: the cleaned dataframe's measurement column is the
interpolated column. -/
theorem clean_df_rows_snd (df : VDF) :
    (clean_df df).rows.map Prod.snd = interpolate_col (df.rows.map Prod.snd) := by
  unfold clean_df
  apply List.map_snd_zip
  simp [interpolate_col_length]

/-- If interpolation leaves a missing value behind, the column was
entirely NaN and the cleaning pass changed nothing. -/
theorem clean_df_stable (df : VDF) (h : has_missing (clean_df df) = true) :
    clean_df df = df := by
  by_cases hs : (df.rows.map Prod.snd).any (fun o => o.isSome) = true
  · exfalso
    have hall := interpolate_col_all_isSome _ hs
    rw [← clean_df_rows_snd] at hall
    rw [has_missing, List.any_eq_true] at h
    obtain ⟨r, hr, hrn⟩ := h
    rw [List.all_eq_true] at hall
    have hsnd := hall r.2 (List.mem_map_of_mem Prod.snd hr)
    cases hv : r.2 with
    | none => rw [hv] at hsnd; simp at hsnd
    | some v => rw [hv] at hrn; simp at hrn
  · have hallnone : (df.rows.map Prod.snd).all (fun o => o.isNone) = true := by
      rw [List.all_eq_true]
      intro x hx
      by_contra hxn
      apply hs
      rw [List.any_eq_true]
      refine ⟨x, hx, ?_⟩
      cases x with
      | none => simp at hxn
      | some v => rfl
    have hid := interpolate_col_all_none _ hallnone
    have hzip : (df.rows.map Prod.fst).zip (df.rows.map Prod.snd) = df.rows := by
      rw [← List.unzip_fst, ← List.unzip_snd, List.zip_unzip]
    unfold clean_df
    rw [hid, hzip]

/-- Re-running one validation-loop iteration on its own cleaned output
reproduces the same report and the same dataframe. -/
theorem validate_one_stable (df : VDF) (name : String) :
    validate_one ((validate_one df name).2) name = validate_one df name := by
  unfold validate_one
  by_cases h : has_missing df = true
  · simp only [h, if_true]
    by_cases h2 : has_missing (clean_df df) = true
    · have heq := clean_df_stable df h2
      simp only [heq, h, if_true]
    · simp [h2]
  · simp [h]

/-- C8: validation is idempotent after one interpolation pass — feeding
the Validator's cleaned output tables back through `validate_data`
reproduces, for each dataset, the very same report (in particular the
same `validation_status`) and the same cleaned tables. -/
theorem C8_validation_idempotent (data : List (String × VDF))
    (reports : List (String × VReport)) (cleaned : List (String × VDF))
    (h : validate_data data = Except.ok (reports, cleaned)) :
    validate_data cleaned = Except.ok (reports, cleaned) := by
  unfold validate_data at h ⊢
  by_cases hd : data.isEmpty = true
  · simp [hd] at h
  · simp only [hd, Bool.false_eq_true, if_false, Except.ok.injEq, Prod.mk.injEq] at h
    obtain ⟨h1, h2⟩ := h
    have hclean : cleaned = data.map (fun kv => (kv.1, (validate_one kv.2 kv.1).2)) := h2.symm
    have hce : cleaned.isEmpty = false := by
      rcases data with _ | ⟨a, t⟩
      · simp at hd
      · rw [hclean]; simp
    rw [hce]
    simp only [Bool.false_eq_true, if_false, Except.ok.injEq, Prod.mk.injEq]
    constructor
    · rw [hclean, List.map_map, ← h1]
      apply List.map_congr_left
      intro kv hkv
      simp only [Function.comp]
      rw [validate_one_stable]
    · rw [hclean, List.map_map]
      apply List.map_congr_left
      intro kv hkv
      simp only [Function.comp]
      rw [validate_one_stable]

/-- Witness for C8: a single rainfall dataset with two consecutive
days, validated to `PASSED`, is reproduced verbatim by a second run. -/
theorem C8_witness :
    validate_data [("d", c8_df)]
        = Except.ok ([("d", { dataset_name := "d", validation_status := VStatus.PASSED,
                              missing_ok := true, date_ok := true, range_ok := true,
                              type_ok := true, error_message := "" })], [("d", c8_df)]) ∧
    validate_data [("d", c8_df)]
        = Except.ok ([("d", { dataset_name := "d", validation_status := VStatus.PASSED,
                              missing_ok := true, date_ok := true, range_ok := true,
                              type_ok := true, error_message := "" })], [("d", c8_df)]) :=
  ⟨by rfl, C8_validation_idempotent [("d", c8_df)] _ _ (by rfl)⟩

/-- C7 counterexample: an internal failure of the Validator's
per-dataframe validation (here: an empty dataframe, whose date-range
formatting raises) is NOT re-raised — `validate_data` returns normally
(`Except.ok`) with an `ERROR`-status report for that dataset. -/
theorem C7_counterexample :
    validate_data [("ds", { rows := [], is_rain := true, date_typed := true })]
        = Except.ok
            ([("ds", { dataset_name := "ds", validation_status := VStatus.ERROR,
                       missing_ok := false, date_ok := false, range_ok := false,
                       type_ok := false,
                       error_message := "empty dataset: formatting the date range raises" })],
             [("ds", { rows := [], is_rain := true, date_typed := true })]) := by
  rfl

/-- C7 (amended): `DataTransformer.transform` and
`DataValidator.validate_data` wrap any exception escaping their body in
an error naming the stage and re-raise it; `ClimateAnalyzer.analyze`
has no handler, so its exceptions propagate unchanged (not wrapped, not
swallowed); and an exception inside `DataValidator._validate_dataframe`
is caught and surfaced as a normally returned `ERROR`-status report
carrying the message, rather than re-raised. -/
theorem C7_stage_error_handling :
    (∀ e : String, transform_stage (Except.error e : Except String Unit)
        = Except.error ("Error during data transformation: " ++ e)) ∧
    (∀ e : String, validate_data_stage (Except.error e : Except String Unit)
        = Except.error ("Error during data validation: " ++ e)) ∧
    (∀ e : String, analyze_stage (Except.error e : Except String Unit) = Except.error e) ∧
    (∀ (df : VDF) (name e : String), _validate_dataframe_body df name = Except.error e →
      (_validate_dataframe df name).validation_status = VStatus.ERROR ∧
      (_validate_dataframe df name).error_message = e) := by
  refine ⟨fun e => rfl, fun e => rfl, fun e => rfl, fun df name e h => ?_⟩
  unfold _validate_dataframe
  rw [h]
  exact ⟨rfl, rfl⟩

/-- Witness for C7 at the empty dataframe. -/
theorem C7_witness :
    _validate_dataframe_body { rows := [], is_rain := true, date_typed := true } "ds"
        = Except.error "empty dataset: formatting the date range raises" ∧
    ((_validate_dataframe { rows := [], is_rain := true, date_typed := true } "ds").validation_status
        = VStatus.ERROR ∧
     (_validate_dataframe { rows := [], is_rain := true, date_typed := true } "ds").error_message
        = "empty dataset: formatting the date range raises") :=
  ⟨rfl, C7_stage_error_handling.2.2.2 { rows := [], is_rain := true, date_typed := true } "ds"
    "empty dataset: formatting the date range raises" rfl⟩

/-- C6: the rainfall-resilience coefficient of variation is NOT guarded
against a zero mean: for the series `[1, -1]` the mean is `0` and the
source evaluates `rainfall.std() / mean_rain` anyway (an undefined
statistic — `inf` in IEEE floats — modelled as `none`); no defined
fallback is taken. -/
theorem C6_division_by_zero_mean :
    listMean [(1 : ℚ), -1] = 0 ∧ _rainfall_resilience [(1 : ℚ), -1] = none := by
  have h : listMean [(1 : ℚ), -1] = 0 := by norm_num [listMean]
  refine ⟨h, ?_⟩
  unfold _rainfall_resilience
  rw [if_pos h]
